import Mathlib

/-!
Shallow embedding of the storyboard-generator application (`src/App.tsx`).

The application is a browser UI around two remote generative-model calls.
We embed its state and handlers as pure Lean functions:

* React `useState`/`useRef` cells become fields of an explicit `AppState`
  record, and each handler becomes a state-transforming function.
* The external providers (image generation, text generation, `atob`,
  `JSON.parse`, `crypto.randomUUID`, ...) become fields of environment
  records, each returning `Except String _` — a thrown JS exception is an
  `Except.error` carrying its message.
* The sequential `handleGenerateAll` loop produces an explicit event trace
  (`BatchEvent`): one `gen` event per issued single-scene generation request
  and one `pause` event per `delay(1000)` call.  The cooperative stop flag
  `stopGenerationRef`, which external code may set at any time via
  `handleStopGeneration`, is observed by the loop only at iteration
  boundaries; we model the value the loop reads at boundary `i` (after the
  flag was cleared on entry) as `sig i`.
-/

namespace Storyboard

/-- A scene record (`Scene` in `src/types.ts`, as used by `App.tsx`):
`scene` is the display number, `script` the summary, `prompt` the
image-generation prompt. -/
structure Scene where
  id : String
  scene : Nat
  script : String
  prompt : String
deriving DecidableEq, Repr

/-- The derived character style (`characterStyle` state in `App.tsx`). -/
structure CharacterStyle where
  character_description : String
  artistic_style : String
deriving DecidableEq, Repr

/-- The signed-in user (`User` in `src/types.ts`). -/
structure User where
  name : String
  email : String
  picture : String
deriving DecidableEq, Repr

/-- The two aspect ratios offered by the UI. -/
inductive AspectRatio where
  | r16x9
  | r9x16
deriving DecidableEq, Repr

/-- The mutable session state held by the `App` component's hooks. -/
structure AppState where
  user : Option User
  scenes : List Scene
  isProcessingPdf : Bool
  characterImage : Option String
  characterStyle : Option CharacterStyle
  isAnalyzingStyle : Bool
  generatedImages : List (String × List String)
  generatingSceneIds : List String
  error : Option (List String)
  aspectRatio : AspectRatio
  isGeneratingAll : Bool
  stopGenerationRef : Bool
deriving DecidableEq, Repr

/-- JS object lookup `m[k]` on the `generatedImages` record. -/
def recordLookup (m : List (String × List String)) (k : String) :
    Option (List String) :=
  (m.find? (fun p => p.fst == k)).map Prod.snd

/-- JS spread update `{...m, [k]: v}`: an existing key keeps its position
and its value is overwritten; a new key is appended. -/
def recordSet (m : List (String × List String)) (k : String)
    (v : List String) : List (String × List String) :=
  if m.any (fun p => p.fst == k) then
    m.map (fun p => if p.fst == k then (k, v) else p)
  else
    m ++ [(k, v)]

/-- JS `new Set(prev).add(x)`: insertion order, no duplicate added. -/
def setAdd (s : List String) (x : String) : List String :=
  if s.contains x then s else s ++ [x]

/-- JS `Set.delete(x)` (on a duplicate-free list). -/
def setDelete (s : List String) (x : String) : List String :=
  s.filter (fun y => y ≠ x)

/-! ### Prompt composition (`generateImageForScene`, `App.tsx` lines 68–89) -/

/-- The fixed quality keywords (`App.tsx` line 73). -/
def qualityKeywords : String :=
  "masterpiece, best quality, high quality, absurdres, ultra-detailed"

/-- The fixed suffix appended to every prompt (`App.tsx` line 89). -/
def qualitySuffix : String :=
  ". Technical keywords for quality: " ++ qualityKeywords ++ "."

/-- The template-literal prompt built when a character style is present
(`App.tsx` lines 80–85), with the literal's exact newlines and indentation. -/
def styledPrompt (scene : Scene) (cs : CharacterStyle) : String :=
  "\n      In the specific artistic style of \"" ++ cs.artistic_style
    ++ "\", generate the following scene:\n      \"" ++ scene.prompt
    ++ "\"\n      CRITICAL: The main character(s) in this scene MUST strictly conform to this detailed description: \""
    ++ cs.character_description
    ++ "\". This is a mandatory requirement.\n      IMPORTANT FOR TEXT: If the scene description includes text, render it with extreme accuracy and detail as specified.\n    "

/-- The final prompt handed to the image provider: the scene prompt (or the
styled template) followed by the quality-keyword suffix. -/
def composeFinalPrompt (scene : Scene) (characterStyle : Option CharacterStyle) :
    String :=
  (match characterStyle with
    | none => scene.prompt
    | some cs => styledPrompt scene cs) ++ qualitySuffix

/-- The external image-generation provider (`ai.models.generateImages`):
given the final prompt and aspect ratio it either returns the base64 image
bytes of each generated image or throws with a message. -/
structure GenEnv where
  generateImages : String → AspectRatio → Except String (List String)

/-- `generateImageForScene` (`App.tsx` lines 68–112): compose the prompt,
call the provider, turn each image into a data URL; on a provider throw,
re-throw tagged with the scene's display number. -/
def generateImageForScene (env : GenEnv) (scene : Scene)
    (aspectRatio : AspectRatio) (characterStyle : Option CharacterStyle) :
    Except String (List String) :=
  let finalPrompt := composeFinalPrompt scene characterStyle
  match env.generateImages finalPrompt aspectRatio with
  | .ok images => .ok (images.map (fun b => "data:image/jpeg;base64," ++ b))
  | .error message =>
      .error ("Image generation failed for scene " ++ toString scene.scene
        ++ ": " ++ message)

/-! ### Single-scene generation (`handleGenerateImage`, `App.tsx` lines 296–324) -/

/-- One observable event of a batch run: a single-scene generation request
being issued, or a `delay(ms)` pacing pause. -/
inductive BatchEvent where
  | gen (sceneId : String)
  | pause (ms : Nat)
deriving DecidableEq, Repr

/-- Whether an event is a generation request (used to count generations). -/
def BatchEvent.isGen : BatchEvent → Bool
  | .gen _ => true
  | .pause _ => false

/-- The state change on entry to `handleGenerateImage` once the scene was
found: add the id to `generatingSceneIds` and clear the error banner
(`App.tsx` lines 300–301).  From this point until the request resolves the
id is in flight. -/
def genStart (st : AppState) (sceneId : String) : AppState :=
  { st with generatingSceneIds := setAdd st.generatingSceneIds sceneId,
            error := none }

/-- `handleGenerateImage(sceneId)`: no-op if the id is not in the scene
list; otherwise mark in flight, issue the request, on success store the
URLs, on failure surface a two-line error, and in all cases remove the id
from `generatingSceneIds` (the `finally` block).  Also returns the list of
issued request events. -/
def handleGenerateImage (env : GenEnv) (st : AppState) (sceneId : String) :
    AppState × List BatchEvent :=
  match st.scenes.find? (fun s => s.id == sceneId) with
  | none => (st, [])
  | some scene =>
    let st1 := genStart st sceneId
    match generateImageForScene env scene st.aspectRatio st.characterStyle with
    | .ok urls =>
        ({ st1 with
            generatedImages := recordSet st1.generatedImages sceneId urls,
            generatingSceneIds := setDelete st1.generatingSceneIds sceneId },
         [.gen sceneId])
    | .error message =>
        ({ st1 with
            error := some ["Failed to generate image for scene "
              ++ toString scene.scene ++ ".", message],
            generatingSceneIds := setDelete st1.generatingSceneIds sceneId },
         [.gen sceneId])

/-- `handleUpdateScenePrompt` (`App.tsx` lines 326–330). -/
def handleUpdateScenePrompt (st : AppState) (sceneId newPrompt : String) :
    AppState :=
  { st with scenes :=
      st.scenes.map (fun s =>
        if s.id == sceneId then { s with prompt := newPrompt } else s) }

/-! ### Batch coordinator (`handleGenerateAll`, `App.tsx` lines 332–349)

`stopGenerationRef` is a mutable ref that `handleStopGeneration` may set to
`true` at any moment.  `handleGenerateAll` clears it on entry, and the loop
reads it once at the start of each iteration.  `sig i` models the value the
loop reads at iteration boundary `i` — i.e. whether a stop was requested
between entry (which cleared the flag) and that boundary. -/

/-- `handleStopGeneration` (`App.tsx` lines 351–353). -/
def handleStopGeneration (st : AppState) : AppState :=
  { st with stopGenerationRef := true }

/-- The `for`-loop of `handleGenerateAll`: at boundary `i` check the stop
flag; if set, break (third component `true`); otherwise run
`handleGenerateImage` for the candidate, then `delay(1000)`, and continue.
Returns the final state, the event trace and whether the loop broke. -/
def runGenerateLoop (env : GenEnv) (sig : Nat → Bool) :
    List Scene → Nat → AppState → AppState × List BatchEvent × Bool
  | [], _, st => (st, [], false)
  | scene :: rest, i, st =>
    if sig i then (st, [], true)
    else
      let p := handleGenerateImage env st scene.id
      let r := runGenerateLoop env sig rest (i + 1) p.1
      (r.1, p.2 ++ (.pause 1000 :: r.2.1), r.2.2)

/-- Entry to the batch: raise `isGeneratingAll` and clear any prior stop
signal (`App.tsx` lines 333–334). -/
def batchEntry (st : AppState) : AppState :=
  { st with isGeneratingAll := true, stopGenerationRef := false }

/-- The candidate list: scenes whose id has no entry in `generatedImages`,
in scene-list order (`App.tsx` line 336).  The JS test is
`!generatedImages[s.id]`; a stored array value is always truthy, so a scene
is a candidate exactly when its key is absent. -/
def batchCandidates (st : AppState) : List Scene :=
  st.scenes.filter (fun s => (recordLookup st.generatedImages s.id).isNone)

/-- `handleGenerateAll`: enter, compute candidates, run the loop, then
lower `isGeneratingAll` and clear the stop flag (`App.tsx` lines 347–348).
Returns the final state, the trace, and whether the run was stopped. -/
def handleGenerateAll (env : GenEnv) (sig : Nat → Bool) (st : AppState) :
    AppState × List BatchEvent × Bool :=
  let st1 := batchEntry st
  let cands := batchCandidates st1
  let r := runGenerateLoop env sig cands 0 st1
  ({ r.1 with isGeneratingAll := false, stopGenerationRef := false },
   r.2.1, r.2.2)

/-! ### Script decomposition (`handlePdfUpload`, `App.tsx` lines 199–248) -/

/-- A scene as returned by the text model, before an id is assigned. -/
structure RawScene where
  scene : Nat
  script : String
  prompt : String
deriving DecidableEq, Repr

/-- External effects of `handlePdfUpload`: `decomposeResponse` is the text
of the provider's reply (`response.text`) or the message of whatever the
file read / `generateContent` call threw; `parseScenes` is
`JSON.parse` applied to that text, read as the expected scene array;
`uuids i` is the value of the `i`-th `self.crypto.randomUUID()` call. -/
structure PdfEnv where
  decomposeResponse : Except String String
  parseScenes : String → Except String (List RawScene)
  uuids : Nat → String

/-- `handlePdfUpload`: clear state, call the provider, parse, attach a
fresh id to each parsed scene and store them; on any throw surface
`Failed to process PDF.` and keep the (cleared) empty scene list. -/
def handlePdfUpload (env : PdfEnv) (st : AppState) : AppState :=
  let st1 := { st with isProcessingPdf := true, error := none,
                       scenes := [], generatedImages := [] }
  let result : Except String (List Scene) :=
    match env.decomposeResponse with
    | .error e => .error e
    | .ok text =>
      match env.parseScenes text with
      | .error e => .error e
      | .ok raws =>
        .ok (raws.enum.map (fun p =>
          { id := env.uuids p.1, scene := p.2.scene,
            script := p.2.script, prompt := p.2.prompt }))
  match result with
  | .ok parsed => { st1 with scenes := parsed, isProcessingPdf := false }
  | .error message =>
      { st1 with error := some ["Failed to process PDF.", message],
                 isProcessingPdf := false }

/-! ### Style analysis (`handleCharacterImageUpload`, `App.tsx` lines 250–294) -/

/-- External effects of `handleCharacterImageUpload`: `styleResponse` is
the provider's reply text or the thrown message; `parseStyle` is
`JSON.parse` of that text read as the expected style object. -/
structure StyleEnv where
  styleResponse : Except String String
  parseStyle : String → Except String CharacterStyle

/-- `handleCharacterImageUpload`: with no selected file, return unchanged;
otherwise record the file, analyze it, and on success store the style;
on any throw surface `Failed to analyze character style.` and discard both
the style and the character image. -/
def handleCharacterImageUpload (env : StyleEnv) (st : AppState)
    (file : Option String) : AppState :=
  match file with
  | none => st
  | some f =>
    let st1 := { st with characterImage := some f, isAnalyzingStyle := true,
                         error := none }
    let result : Except String CharacterStyle :=
      match env.styleResponse with
      | .error e => .error e
      | .ok text => env.parseStyle text
    match result with
    | .ok style =>
        { st1 with characterStyle := some style, isAnalyzingStyle := false }
    | .error message =>
        { st1 with error := some ["Failed to analyze character style.", message],
                   characterStyle := none, characterImage := none,
                   isAnalyzingStyle := false }

/-! ### Token decoding (`jwtDecode`, `App.tsx` lines 38–55) -/

/-- The payload shape `jwtDecode` is instantiated with in
`handleLoginSuccess`. -/
structure JwtPayload where
  name : String
  email : String
  picture : String
deriving DecidableEq, Repr

/-- Browser built-ins used by `jwtDecode`, each of which may throw:
`atob` (`InvalidCharacterError` on malformed base64),
`decodeURIComponent` (`URIError` on invalid percent sequences), and
`JSON.parse` (`SyntaxError`), the last read at the payload shape. -/
structure BrowserEnv where
  atob : String → Except String String
  decodeURIComponent : String → Except String String
  jsonParse : String → Except String JwtPayload

/-- JS `String.prototype.split` with a one-character separator, as an
executable recursion over the character list: `jsSplitAux sep cs acc`
walks `cs` accumulating the current (reversed) segment in `acc`. -/
def jsSplitAux (sep : Char) : List Char → List Char → List String
  | [], acc => [String.mk acc.reverse]
  | c :: cs, acc =>
    if c = sep then String.mk acc.reverse :: jsSplitAux sep cs []
    else jsSplitAux sep cs (c :: acc)

/-- `token.split('.')` (`App.tsx` line 40). -/
def jsSplitDot (token : String) : List String :=
  jsSplitAux '.' token.data []

/-- The `'%' + ('00' + c.charCodeAt(0).toString(16)).slice(-2)` map joined
over the characters of the `atob` output (`App.tsx` lines 44–48). -/
def percentEncode (s : String) : String :=
  String.join (s.toList.map (fun c =>
    "%" ++ (("00" ++ String.mk (Nat.toDigits 16 c.toNat)).takeRight 2)))

/-- The body of `jwtDecode`'s `try` block as an exception pipeline.
`token.split('.')[1]` is `undefined` when the token has fewer than two
segments, making the subsequent `.replace` throw a `TypeError`. -/
def jwtDecodeSteps (env : BrowserEnv) (token : String) :
    Except String JwtPayload :=
  match (jsSplitDot token)[1]? with
  | none => .error "TypeError: base64Url is undefined"
  | some base64Url =>
    let base64 := (base64Url.replace "-" "+").replace "_" "/"
    match env.atob base64 with
    | .error e => .error e
    | .ok decoded =>
      match env.decodeURIComponent (percentEncode decoded) with
      | .error e => .error e
      | .ok jsonPayload => env.jsonParse jsonPayload

/-- `jwtDecode`: the pipeline above with every thrown exception caught and
turned into `null`. -/
def jwtDecode (env : BrowserEnv) (token : String) : Option JwtPayload :=
  match jwtDecodeSteps env token with
  | .ok payload => some payload
  | .error _ => none

/-- `handleLoginSuccess` (`App.tsx` lines 136–147): decode the credential
and set the user only when decoding yielded a payload. -/
def handleLoginSuccess (env : BrowserEnv) (st : AppState)
    (credential : String) : AppState :=
  match jwtDecode env credential with
  | some d =>
      { st with user := some { name := d.name, email := d.email,
                               picture := d.picture } }
  | none => st

/-! ### Demo fixtures used by the witness theorems -/

/-- A first demo scene. -/
def sceneA : Scene := { id := "a", scene := 1, script := "sa", prompt := "pa" }

/-- A second demo scene. -/
def sceneB : Scene := { id := "b", scene := 2, script := "sb", prompt := "pb" }

/-- A session with two scenes, nothing generated, no style. -/
def demoState : AppState :=
  { user := none, scenes := [sceneA, sceneB], isProcessingPdf := false,
    characterImage := none, characterStyle := none, isAnalyzingStyle := false,
    generatedImages := [], generatingSceneIds := [], error := none,
    aspectRatio := .r16x9, isGeneratingAll := false,
    stopGenerationRef := false }

/-- An image provider that always succeeds with one image. -/
def okEnv : GenEnv := ⟨fun _ _ => .ok ["bytes"]⟩

/-- An image provider that always throws. -/
def failEnv : GenEnv := ⟨fun _ _ => .error "boom"⟩

/-- Browser built-ins that all throw. -/
def demoBrowserEnv : BrowserEnv :=
  ⟨fun _ => .error "bad", fun _ => .error "bad", fun _ => .error "bad"⟩

/-! ### Helper lemmas -/

/-- `handleGenerateImage` never touches the scene list, the style profile
or the aspect ratio. -/
theorem handleGenerateImage_preserves (env : GenEnv) (st : AppState)
    (sceneId : String) :
    ((handleGenerateImage env st sceneId).1).scenes = st.scenes ∧
    ((handleGenerateImage env st sceneId).1).characterStyle = st.characterStyle ∧
    ((handleGenerateImage env st sceneId).1).aspectRatio = st.aspectRatio := by
  unfold handleGenerateImage genStart
  cases hf : st.scenes.find? (fun s => s.id == sceneId) with
  | none => simp
  | some scene =>
    cases hg : generateImageForScene env scene st.aspectRatio st.characterStyle with
    | ok urls => simp [hg]
    | error message => simp [hg]

/-- When the requested scene is in the list, `handleGenerateImage` issues
exactly one generation request. -/
theorem handleGenerateImage_trace_of_mem (env : GenEnv) (st : AppState)
    (s : Scene) (hmem : s ∈ st.scenes) :
    (handleGenerateImage env st s.id).2 = [BatchEvent.gen s.id] := by
  have hsome : (st.scenes.find? (fun t => t.id == s.id)).isSome := by
    rw [List.find?_isSome]
    exact ⟨s, hmem, by simp⟩
  obtain ⟨t, ht⟩ := Option.isSome_iff_exists.mp hsome
  unfold handleGenerateImage
  rw [ht]
  cases hg : generateImageForScene env t st.aspectRatio st.characterStyle with
  | ok urls => simp [hg]
  | error message => simp [hg]

/-- With the stop flag never set, the loop issues one generation request
and one 1000 ms pause per candidate, in order, and does not break. -/
theorem runGenerateLoop_noStop (env : GenEnv) (sig : Nat → Bool)
    (hsig : ∀ i, sig i = false) :
    ∀ (cands : List Scene) (i : Nat) (st : AppState),
      (∀ s ∈ cands, s ∈ st.scenes) →
      (runGenerateLoop env sig cands i st).2 =
        (cands.flatMap (fun s => [BatchEvent.gen s.id, BatchEvent.pause 1000]),
         false) := by
  intro cands
  induction cands with
  | nil => intro i st _; simp [runGenerateLoop]
  | cons scene rest ih =>
    intro i st hmem
    have hpres := (handleGenerateImage_preserves env st scene.id).1
    have htr := handleGenerateImage_trace_of_mem env st scene
      (hmem scene (by simp))
    have hrest := ih (i + 1) (handleGenerateImage env st scene.id).1
      (fun s hs => by rw [hpres]; exact hmem s (List.mem_cons_of_mem _ hs))
    simp only [runGenerateLoop, hsig i, if_false, Bool.false_eq_true]
    rw [htr, Prod.ext_iff] at *
    simp only [List.flatMap_cons, List.cons_append, List.nil_append]
    exact ⟨by rw [hrest.1], by rw [hrest.2]⟩

/-- With the stop flag first observed set at boundary `m`, a loop entered
at boundary `i` with more than `m - i` candidates left processes exactly
the first `m - i` of them and then breaks. -/
theorem runGenerateLoop_stop (env : GenEnv) (sig : Nat → Bool) (m : Nat)
    (hsig : ∀ i, sig i = decide (m ≤ i)) :
    ∀ (cands : List Scene) (i : Nat) (st : AppState),
      (∀ s ∈ cands, s ∈ st.scenes) → m - i < cands.length →
      (runGenerateLoop env sig cands i st).2 =
        ((cands.take (m - i)).flatMap
          (fun s => [BatchEvent.gen s.id, BatchEvent.pause 1000]), true) := by
  intro cands
  induction cands with
  | nil => intro i st _ hlt; simp at hlt
  | cons scene rest ih =>
    intro i st hmem hlt
    have hlen : m - i < rest.length + 1 := by simpa using hlt
    by_cases hmi : m ≤ i
    · have hzero : m - i = 0 := Nat.sub_eq_zero_of_le hmi
      have hsi : sig i = true := by simp [hsig i, hmi]
      simp [runGenerateLoop, hsi, hzero]
    · have hilt : i < m := Nat.lt_of_not_le hmi
      have hsi : sig i = false := by simp [hsig i, hmi]
      have hpres := (handleGenerateImage_preserves env st scene.id).1
      have htr := handleGenerateImage_trace_of_mem env st scene
        (hmem scene (by simp))
      have hlt' : m - (i + 1) < rest.length := by omega
      have hrest := ih (i + 1) (handleGenerateImage env st scene.id).1
        (fun s hs => by rw [hpres]; exact hmem s (List.mem_cons_of_mem _ hs))
        hlt'
      have hmi1 : m - i = (m - (i + 1)) + 1 := by omega
      simp only [runGenerateLoop, hsi, if_false, Bool.false_eq_true]
      rw [hmi1, List.take_succ_cons]
      rw [htr, Prod.ext_iff] at *
      simp only [List.flatMap_cons, List.cons_append, List.nil_append]
      exact ⟨by rw [hrest.1], by rw [hrest.2]⟩

/-- The trace of one generation plus one pause per scene has as many
generation events as scenes. -/
theorem countGen_flatMap (l : List Scene) :
    ((l.flatMap (fun s => [BatchEvent.gen s.id, BatchEvent.pause 1000])).countP
      (fun e => BatchEvent.isGen e)) = l.length := by
  induction l with
  | nil => rfl
  | cons a t ih =>
    rw [List.flatMap_cons, List.countP_append, ih, List.length_cons]
    simp [List.countP_cons, BatchEvent.isGen]
    omega

/-- Every batch candidate is a stored scene. -/
theorem batchCandidates_subset (st : AppState) :
    ∀ s ∈ batchCandidates st, s ∈ st.scenes := by
  intro s hs
  exact List.mem_of_mem_filter hs

/-- Adding an id to the in-flight set makes it a member. -/
theorem mem_setAdd_self (s : List String) (x : String) : x ∈ setAdd s x := by
  unfold setAdd
  by_cases h : x ∈ s
  · simp [h]
  · simp [h]

/-- Deleting just after adding is the same as deleting outright (the
`finally` block undoes the entry mark). -/
theorem setDelete_setAdd (s : List String) (x : String) :
    setDelete (setAdd s x) x = setDelete s x := by
  unfold setAdd setDelete
  by_cases h : x ∈ s
  · simp [h]
  · simp [h, List.filter_append]

/-! ### Claims -/

/-- C1: When a batch is started the candidate list is exactly the scenes
whose id has no entry in `generatedImages`, in scene-store order, and the
prior stop signal is cleared on entry; if generation succeeds for every
request and no stop is signaled, the run issues exactly one generation
request per candidate, sequentially in candidate order, each followed by
the fixed 1000 ms pacing delay, never breaks, and the coordinator ends in
the completed idle state (`isGeneratingAll` lowered, stop flag clear). -/
theorem generateAll_complete_run (env : GenEnv) (sig : Nat → Bool)
    (st : AppState) (hsig : ∀ i, sig i = false)
    (hok : ∀ p a, (env.generateImages p a).isOk = true) :
    batchCandidates (batchEntry st) =
      st.scenes.filter
        (fun s => (recordLookup st.generatedImages s.id).isNone) ∧
    (batchEntry st).stopGenerationRef = false ∧
    (handleGenerateAll env sig st).2.1 =
      (batchCandidates (batchEntry st)).flatMap
        (fun s => [BatchEvent.gen s.id, BatchEvent.pause 1000]) ∧
    (handleGenerateAll env sig st).2.2 = false ∧
    ((handleGenerateAll env sig st).1).isGeneratingAll = false ∧
    ((handleGenerateAll env sig st).1).stopGenerationRef = false := by
  have hloop := runGenerateLoop_noStop env sig hsig
    (batchCandidates (batchEntry st)) 0 (batchEntry st)
    (batchCandidates_subset (batchEntry st))
  rw [Prod.ext_iff] at hloop
  exact ⟨rfl, rfl, hloop.1, hloop.2, rfl, rfl⟩

/-- Witness for C1: on the two-scene demo session with an always-succeeding
provider and no stop request, the trace is generate `a`, pause, generate
`b`, pause, and the run is not stopped. -/
theorem generateAll_complete_run_witness :
    (handleGenerateAll okEnv (fun _ => false) demoState).2.1 =
      [BatchEvent.gen "a", BatchEvent.pause 1000,
       BatchEvent.gen "b", BatchEvent.pause 1000] ∧
    (handleGenerateAll okEnv (fun _ => false) demoState).2.2 = false := by
  have h := generateAll_complete_run okEnv (fun _ => false) demoState
    (fun _ => rfl) (fun _ _ => rfl)
  refine ⟨?_, h.2.2.2.1⟩
  rw [h.2.2.1]
  rfl

/-- C2: If the stop signal is first observed set at iteration boundary `k`
(set after the `k`-th generation completed and before the `(k+1)`-th
began), the run issues exactly `k` generation requests — the first `k`
candidates in order, a request already issued always running to completion
within its iteration — and the coordinator reaches the stopped terminal
state. -/
theorem generateAll_stop_run (env : GenEnv) (sig : Nat → Bool)
    (st : AppState) (k : Nat)
    (hsig : ∀ i, sig i = decide (k ≤ i))
    (hk : k < (batchCandidates (batchEntry st)).length) :
    (handleGenerateAll env sig st).2.1 =
      ((batchCandidates (batchEntry st)).take k).flatMap
        (fun s => [BatchEvent.gen s.id, BatchEvent.pause 1000]) ∧
    ((handleGenerateAll env sig st).2.1).countP
        (fun e => BatchEvent.isGen e) = k ∧
    (handleGenerateAll env sig st).2.2 = true ∧
    ((handleGenerateAll env sig st).1).isGeneratingAll = false := by
  have hloop := runGenerateLoop_stop env sig k hsig
    (batchCandidates (batchEntry st)) 0 (batchEntry st)
    (batchCandidates_subset (batchEntry st)) (by simpa using hk)
  simp only [Nat.sub_zero] at hloop
  rw [Prod.ext_iff] at hloop
  refine ⟨hloop.1, ?_, hloop.2, rfl⟩
  have hcount : (handleGenerateAll env sig st).2.1 = _ := hloop.1
  rw [hcount, countGen_flatMap, List.length_take]
  omega

/-- Witness for C2: on the demo session with the stop signal first seen at
boundary 1, only scene `a` is generated and the run is stopped. -/
theorem generateAll_stop_run_witness :
    (handleGenerateAll okEnv (fun i => decide (1 ≤ i)) demoState).2.1 =
      [BatchEvent.gen "a", BatchEvent.pause 1000] ∧
    (handleGenerateAll okEnv (fun i => decide (1 ≤ i)) demoState).2.2 =
      true := by
  have h := generateAll_stop_run okEnv (fun i => decide (1 ≤ i)) demoState 1
    (fun _ => rfl) (by decide)
  refine ⟨?_, h.2.2.1⟩
  rw [h.1]
  rfl

/-- C3: When a scene's generation fails, `generatedImages` is left
entirely unchanged (so any prior entry for that id is preserved), a
two-line error tagged with the scene's display number and carrying the
underlying failure message is surfaced, and a batch loop with no stop
request still issues one generation request per candidate — a failure does
not halt it. -/
theorem generateImage_failure_run (env : GenEnv) (st : AppState)
    (sceneId : String) (scene : Scene) (msg : String)
    (hfind : st.scenes.find? (fun s => s.id == sceneId) = some scene)
    (henv : env.generateImages (composeFinalPrompt scene st.characterStyle)
        st.aspectRatio = .error msg) :
    ((handleGenerateImage env st sceneId).1).generatedImages =
      st.generatedImages ∧
    ((handleGenerateImage env st sceneId).1).error =
      some ["Failed to generate image for scene "
              ++ toString scene.scene ++ ".",
            "Image generation failed for scene "
              ++ toString scene.scene ++ ": " ++ msg] ∧
    (∀ sig : Nat → Bool, (∀ i, sig i = false) →
      ∀ cands : List Scene, (∀ s ∈ cands, s ∈ st.scenes) →
        (runGenerateLoop env sig cands 0 st).2.1 =
          cands.flatMap
            (fun s => [BatchEvent.gen s.id, BatchEvent.pause 1000])) := by
  have hgen : generateImageForScene env scene st.aspectRatio
      st.characterStyle =
      .error ("Image generation failed for scene "
        ++ toString scene.scene ++ ": " ++ msg) := by
    simp [generateImageForScene, henv]
  refine ⟨?_, ?_, ?_⟩
  · unfold handleGenerateImage
    simp only [hfind, hgen]
    simp [genStart]
  · unfold handleGenerateImage
    simp only [hfind, hgen]
  · intro sig hsig cands hmem
    have h := runGenerateLoop_noStop env sig hsig cands 0 st hmem
    rw [Prod.ext_iff] at h
    exact h.1

/-- Witness for C3: with an always-throwing provider, generating scene `a`
of the demo session keeps `generatedImages` empty and surfaces the tagged
error. -/
theorem generateImage_failure_run_witness :
    ((handleGenerateImage failEnv demoState "a").1).generatedImages =
      demoState.generatedImages ∧
    ((handleGenerateImage failEnv demoState "a").1).error =
      some ["Failed to generate image for scene 1.",
            "Image generation failed for scene 1: boom"] := by
  have h := generateImage_failure_run failEnv demoState "a" sceneA "boom"
    rfl rfl
  exact ⟨h.1, h.2.1⟩

/-- C4: Generating an unknown scene id is a no-op with no request issued;
for a known id, the id is in `generatingSceneIds` from the entry mark until
the request resolves, and on exit — success or failure alike — it has been
removed. -/
theorem generationStatus_membership (env : GenEnv) (st : AppState)
    (sceneId : String) :
    (st.scenes.find? (fun s => s.id == sceneId) = none →
      handleGenerateImage env st sceneId = (st, [])) ∧
    (∀ scene, st.scenes.find? (fun s => s.id == sceneId) = some scene →
      sceneId ∈ (genStart st sceneId).generatingSceneIds ∧
      ((handleGenerateImage env st sceneId).1).generatingSceneIds =
        setDelete st.generatingSceneIds sceneId ∧
      sceneId ∉ ((handleGenerateImage env st sceneId).1).generatingSceneIds) := by
  constructor
  · intro hnone
    unfold handleGenerateImage
    rw [hnone]
  · intro scene hfind
    have hdel : ((handleGenerateImage env st sceneId).1).generatingSceneIds =
        setDelete st.generatingSceneIds sceneId := by
      unfold handleGenerateImage
      rw [hfind]
      cases hg : generateImageForScene env scene st.aspectRatio
          st.characterStyle with
      | ok urls => simp [hg, genStart, setDelete_setAdd]
      | error message => simp [hg, genStart, setDelete_setAdd]
    refine ⟨mem_setAdd_self st.generatingSceneIds sceneId, hdel, ?_⟩
    rw [hdel]
    simp [setDelete]

/-- Witness for C4: instantiated on the demo session for scene `a` — in
flight after the entry mark, absent after exit, and a no-op for an unknown
id on a disjoint check. -/
theorem generationStatus_membership_witness :
    "a" ∈ (genStart demoState "a").generatingSceneIds ∧
    ("a" ∈ ((handleGenerateImage okEnv demoState "a").1).generatingSceneIds →
      False) ∧
    handleGenerateImage okEnv demoState "zzz" = (demoState, []) := by
  have h := generationStatus_membership okEnv demoState "a"
  have h2 := generationStatus_membership okEnv demoState "zzz"
  exact ⟨(h.2 sceneA rfl).1, (h.2 sceneA rfl).2.2, h2.1 rfl⟩

/-- C5: The composed prompt always ends with the fixed quality-keyword
suffix; with no style profile it is exactly `scene.prompt` followed by that
suffix; with a profile it contains the profile's artistic style and
character description verbatim as substrings. -/
theorem composePrompt_content (scene : Scene)
    (cs : Option CharacterStyle) :
    (∃ pre, composeFinalPrompt scene cs = pre ++ qualitySuffix) ∧
    (cs = none →
      composeFinalPrompt scene cs = scene.prompt ++ qualitySuffix) ∧
    (∀ c, cs = some c →
      (∃ p q, composeFinalPrompt scene cs = p ++ (c.artistic_style ++ q)) ∧
      (∃ p q, composeFinalPrompt scene cs =
        p ++ (c.character_description ++ q))) := by
  refine ⟨⟨match cs with | none => scene.prompt | some c => styledPrompt scene c, rfl⟩,
    fun h => by subst h; rfl, fun c h => ?_⟩
  subst h
  constructor
  · refine ⟨"\n      In the specific artistic style of \"",
      "\", generate the following scene:\n      \"" ++ scene.prompt
        ++ "\"\n      CRITICAL: The main character(s) in this scene MUST strictly conform to this detailed description: \""
        ++ c.character_description
        ++ "\". This is a mandatory requirement.\n      IMPORTANT FOR TEXT: If the scene description includes text, render it with extreme accuracy and detail as specified.\n    "
        ++ qualitySuffix, ?_⟩
    simp [composeFinalPrompt, styledPrompt, String.append_assoc]
  · refine ⟨"\n      In the specific artistic style of \"" ++ c.artistic_style
        ++ "\", generate the following scene:\n      \"" ++ scene.prompt
        ++ "\"\n      CRITICAL: The main character(s) in this scene MUST strictly conform to this detailed description: \"",
      "\". This is a mandatory requirement.\n      IMPORTANT FOR TEXT: If the scene description includes text, render it with extreme accuracy and detail as specified.\n    "
        ++ qualitySuffix, ?_⟩
    simp [composeFinalPrompt, styledPrompt, String.append_assoc]

/-- Witness for C5: for the demo scene with no profile the composed prompt
is the scene prompt followed by the suffix, and with a concrete profile the
artistic style appears as a substring. -/
theorem composePrompt_content_witness :
    composeFinalPrompt sceneA none = "pa" ++ qualitySuffix ∧
    (∃ p q, composeFinalPrompt sceneA (some ⟨"cd", "as"⟩) =
      p ++ ("as" ++ q)) := by
  have h1 := (composePrompt_content sceneA none).2.1 rfl
  have h2 := ((composePrompt_content sceneA (some ⟨"cd", "as"⟩)).2.2
    ⟨"cd", "as"⟩ rfl).1
  exact ⟨h1, h2⟩

/-- C6: Prompt composition is a pure function of the scene and the optional
style profile: identical inputs give identical output. -/
theorem composePrompt_deterministic (s1 s2 : Scene)
    (p1 p2 : Option CharacterStyle) (hs : s1 = s2) (hp : p1 = p2) :
    composeFinalPrompt s1 p1 = composeFinalPrompt s2 p2 := by
  rw [hs, hp]

/-- Witness for C6: two calls on the demo scene agree. -/
theorem composePrompt_deterministic_witness :
    composeFinalPrompt sceneA none = composeFinalPrompt sceneA none :=
  composePrompt_deterministic sceneA sceneA none none rfl rfl

/-- C7: A script-decomposition attempt whose provider call or parse fails
ends with an empty scene list and the `Failed to process PDF.` error
surfaced — no partial list is kept; on success, with distinct
`randomUUID` draws, the stored scenes carry exactly the freshly drawn ids
and those ids are pairwise distinct. -/
theorem pdfUpload_outcome (env : PdfEnv) (st : AppState) :
    (∀ msg, (env.decomposeResponse = .error msg ∨
        (∃ text, env.decomposeResponse = .ok text ∧
          env.parseScenes text = .error msg)) →
      (handlePdfUpload env st).scenes = [] ∧
      (handlePdfUpload env st).error =
        some ["Failed to process PDF.", msg]) ∧
    (∀ text raws, env.decomposeResponse = .ok text →
      env.parseScenes text = .ok raws →
      (handlePdfUpload env st).scenes.length = raws.length ∧
      (handlePdfUpload env st).scenes.map Scene.id =
        (List.range raws.length).map env.uuids ∧
      (Function.Injective env.uuids →
        ((handlePdfUpload env st).scenes.map Scene.id).Nodup)) := by
  constructor
  · intro msg hfail
    rcases hfail with hdec | ⟨text, hdec, hparse⟩
    · unfold handlePdfUpload
      simp [hdec]
    · unfold handlePdfUpload
      simp [hdec, hparse]
  · intro text raws hdec hparse
    have hscenes : (handlePdfUpload env st).scenes =
        raws.enum.map (fun p =>
          { id := env.uuids p.1, scene := p.2.scene,
            script := p.2.script, prompt := p.2.prompt }) := by
      unfold handlePdfUpload
      simp only [hdec, hparse]
    have hids : (handlePdfUpload env st).scenes.map Scene.id =
        (List.range raws.length).map env.uuids := by
      rw [hscenes, List.map_map]
      have : (Scene.id ∘ fun p : Nat × RawScene =>
          ({ id := env.uuids p.1, scene := p.2.scene,
             script := p.2.script, prompt := p.2.prompt } : Scene)) =
          (env.uuids ∘ Prod.fst) := rfl
      rw [this, ← List.map_map, List.enum_map_fst]
    refine ⟨?_, hids, ?_⟩
    · rw [hscenes, List.length_map, List.enum_length]
    · intro hinj
      rw [hids]
      exact (List.nodup_range raws.length).map hinj

/-- Witness for C7: a provider that throws leaves the demo session with an
empty scene list and the surfaced error. -/
theorem pdfUpload_outcome_witness :
    (handlePdfUpload
        ⟨.error "oops", fun _ => .error "x", fun _ => ""⟩ demoState).scenes
      = [] ∧
    (handlePdfUpload
        ⟨.error "oops", fun _ => .error "x", fun _ => ""⟩ demoState).error
      = some ["Failed to process PDF.", "oops"] :=
  (pdfUpload_outcome ⟨.error "oops", fun _ => .error "x", fun _ => ""⟩
    demoState).1 "oops" (Or.inl rfl)

/-- C8: A style-analysis attempt whose provider call or parse fails ends
with the style profile cleared to absent, the character image discarded,
and the `Failed to analyze character style.` error surfaced — regardless
of any previously active profile. -/
theorem characterUpload_failure (env : StyleEnv) (st : AppState)
    (file : String) (msg : String)
    (hfail : env.styleResponse = .error msg ∨
      (∃ text, env.styleResponse = .ok text ∧
        env.parseStyle text = .error msg)) :
    (handleCharacterImageUpload env st (some file)).characterStyle = none ∧
    (handleCharacterImageUpload env st (some file)).characterImage = none ∧
    (handleCharacterImageUpload env st (some file)).error =
      some ["Failed to analyze character style.", msg] := by
  rcases hfail with hresp | ⟨text, hresp, hparse⟩
  · unfold handleCharacterImageUpload
    simp [hresp]
  · unfold handleCharacterImageUpload
    simp [hresp, hparse]

/-- Witness for C8: a throwing analyzer clears a previously active demo
profile and the staged image. -/
theorem characterUpload_failure_witness :
    (handleCharacterImageUpload ⟨.error "bad", fun _ => .error "y"⟩
        { demoState with characterStyle := some ⟨"cd", "as"⟩,
                         characterImage := some "old.png" }
        (some "new.png")).characterStyle = none ∧
    (handleCharacterImageUpload ⟨.error "bad", fun _ => .error "y"⟩
        { demoState with characterStyle := some ⟨"cd", "as"⟩,
                         characterImage := some "old.png" }
        (some "new.png")).characterImage = none ∧
    (handleCharacterImageUpload ⟨.error "bad", fun _ => .error "y"⟩
        { demoState with characterStyle := some ⟨"cd", "as"⟩,
                         characterImage := some "old.png" }
        (some "new.png")).error =
      some ["Failed to analyze character style.", "bad"] :=
  characterUpload_failure ⟨.error "bad", fun _ => .error "y"⟩
    { demoState with characterStyle := some ⟨"cd", "as"⟩,
                     characterImage := some "old.png" }
    "new.png" "bad" (Or.inl rfl)

/-- C9: Updating a scene's prompt rewrites only the prompt of positions
whose id matches, keeping every other scene, the list length and order,
the result cache and the in-flight set unchanged; with no matching id the
state is unchanged. -/
theorem updateScenePrompt_frame (st : AppState)
    (sceneId newPrompt : String) :
    (handleUpdateScenePrompt st sceneId newPrompt).scenes.length =
      st.scenes.length ∧
    (∀ i : Nat, (handleUpdateScenePrompt st sceneId newPrompt).scenes[i]? =
      (st.scenes[i]?).map (fun s =>
        if s.id == sceneId then { s with prompt := newPrompt } else s)) ∧
    (∀ i : Nat,
      ((handleUpdateScenePrompt st sceneId newPrompt).scenes[i]?).map
          Scene.id = (st.scenes[i]?).map Scene.id) ∧
    (∀ i : Nat,
      ((handleUpdateScenePrompt st sceneId newPrompt).scenes[i]?).map
          Scene.scene = (st.scenes[i]?).map Scene.scene) ∧
    (∀ i : Nat,
      ((handleUpdateScenePrompt st sceneId newPrompt).scenes[i]?).map
          Scene.script = (st.scenes[i]?).map Scene.script) ∧
    (handleUpdateScenePrompt st sceneId newPrompt).generatedImages =
      st.generatedImages ∧
    (handleUpdateScenePrompt st sceneId newPrompt).generatingSceneIds =
      st.generatingSceneIds ∧
    ((∀ s ∈ st.scenes, ¬ s.id = sceneId) →
      handleUpdateScenePrompt st sceneId newPrompt = st) := by
  have hget : ∀ i : Nat,
      (handleUpdateScenePrompt st sceneId newPrompt).scenes[i]? =
      (st.scenes[i]?).map (fun s =>
        if s.id == sceneId then { s with prompt := newPrompt } else s) := by
    intro i
    unfold handleUpdateScenePrompt
    simp [List.getElem?_map]
  refine ⟨by simp [handleUpdateScenePrompt], hget, ?_, ?_, ?_, rfl, rfl, ?_⟩
  · intro i
    rw [hget i]
    cases st.scenes[i]? with
    | none => rfl
    | some s => by_cases h : s.id = sceneId <;> simp [h]
  · intro i
    rw [hget i]
    cases st.scenes[i]? with
    | none => rfl
    | some s => by_cases h : s.id = sceneId <;> simp [h]
  · intro i
    rw [hget i]
    cases st.scenes[i]? with
    | none => rfl
    | some s => by_cases h : s.id = sceneId <;> simp [h]
  · intro hnone
    unfold handleUpdateScenePrompt
    have : st.scenes.map (fun s =>
        if s.id == sceneId then { s with prompt := newPrompt } else s) =
        st.scenes.map id := by
      refine List.map_congr_left (fun s hs => ?_)
      simp [hnone s hs]
    rw [this, List.map_id]

/-- Witness for C9: updating an id absent from the demo session changes
nothing, and the result cache is untouched for a present id. -/
theorem updateScenePrompt_frame_witness :
    handleUpdateScenePrompt demoState "zzz" "np" = demoState ∧
    (handleUpdateScenePrompt demoState "a" "np").generatedImages =
      demoState.generatedImages := by
  have h1 := (updateScenePrompt_frame demoState "zzz" "np").2.2.2.2.2.2.2
    (by decide)
  have h2 := (updateScenePrompt_frame demoState "a" "np").2.2.2.2.2.1
  exact ⟨h1, h2⟩

/-- C10: Every stage of `jwtDecode` that can throw — a missing payload
segment, a failing `atob`, a failing `decodeURIComponent`, a failing
`JSON.parse` — yields `null` rather than an escaping exception, and on a
`null` decode `handleLoginSuccess` leaves the state unchanged. -/
theorem jwtDecode_total (env : BrowserEnv) (st : AppState)
    (token : String) :
    ((jsSplitDot token)[1]? = none → jwtDecode env token = none) ∧
    (∀ seg msg, (jsSplitDot token)[1]? = some seg →
      env.atob ((seg.replace "-" "+").replace "_" "/") = .error msg →
      jwtDecode env token = none) ∧
    (∀ seg dec msg, (jsSplitDot token)[1]? = some seg →
      env.atob ((seg.replace "-" "+").replace "_" "/") = .ok dec →
      env.decodeURIComponent (percentEncode dec) = .error msg →
      jwtDecode env token = none) ∧
    (∀ seg dec uri msg, (jsSplitDot token)[1]? = some seg →
      env.atob ((seg.replace "-" "+").replace "_" "/") = .ok dec →
      env.decodeURIComponent (percentEncode dec) = .ok uri →
      env.jsonParse uri = .error msg →
      jwtDecode env token = none) ∧
    (jwtDecode env token = none →
      handleLoginSuccess env st token = st) := by
  refine ⟨?_, ?_, ?_, ?_, ?_⟩
  · intro h
    unfold jwtDecode jwtDecodeSteps
    simp only [h]
  · intro seg msg h1 h2
    unfold jwtDecode jwtDecodeSteps
    simp only [h1, h2]
  · intro seg dec msg h1 h2 h3
    unfold jwtDecode jwtDecodeSteps
    simp only [h1, h2, h3]
  · intro seg dec uri msg h1 h2 h3 h4
    unfold jwtDecode jwtDecodeSteps
    simp only [h1, h2, h3, h4]
  · intro h
    unfold handleLoginSuccess
    simp [h]

/-- Witness for C10: a token with no second segment decodes to `null` under
throwing built-ins and leaves the demo session untouched on login. -/
theorem jwtDecode_total_witness :
    jwtDecode demoBrowserEnv "x" = none ∧
    handleLoginSuccess demoBrowserEnv demoState "x" = demoState := by
  have h := jwtDecode_total demoBrowserEnv demoState "x"
  have hnone := h.1 rfl
  exact ⟨hnone, h.2.2.2.2 hnone⟩

end Storyboard
